import Mathlib

/-!
Verification of the StorySync context-management and chapter-generation core.

The definitions below are a shallow embedding of the Python sources:
`src/utils/context_manager.py`, `src/story/chapters.py` and
`src/story/foundation.py`.  Python dictionaries whose values may be either a
string, a list of strings, or `None` are modelled by `PyVal`; dictionary keys
that may be absent are modelled by `Option`.  Methods that can raise a Python
exception return `Except String _`.  Machine arithmetic is modelled with
`Int`/`Nat` (Python integers are unbounded), and the float chapter-position
arithmetic of `chapters.py` with exact fraction comparisons over `Int`
(`n/N <= 0.25` becomes `4*n <= N`, `int(n/N * L)` becomes the
toward-zero integer division of `n*L` by `N`; these agree with the floats
at the scales the code exercises).
-/

/-- A Python value that is either a string, a list of strings, or `None`.
This is the value space the source manipulates for the duck-typed
string-or-list fields (`key_events`, `next_chapter_hooks`, ...). -/
inductive PyVal where
  | str (s : String)
  | lst (l : List String)
  | pynone
deriving DecidableEq, Repr

/-- One context point, as appended by `ContextManager.add_context_point`
(`context_manager.py` lines 100-107). -/
structure ContextPoint where
  content : String
  chapter : Int
  importance : String
  type : String
  weight : Int
deriving DecidableEq, Repr

/-- One chapter summary, as stored by `ContextManager.update_with_chapter`
(`context_manager.py` lines 26-30).  `key_events` keeps the raw value from
the chapter dict (which may be a bare string). -/
structure ChapterSummary where
  title : String
  summary : String
  key_events : PyVal
deriving DecidableEq, Repr

/-- State of a `ContextManager` instance: the `context_points` list and the
`chapter_summaries` dict (modelled as an insertion-ordered association
list, matching Python dict semantics for the operations used). -/
structure ContextManager where
  context_points : List ContextPoint
  chapter_summaries : List (Int × ChapterSummary)
deriving DecidableEq, Repr

/-- A chapter record (a Python dict); only the keys read by the embedded
code are modelled.  `none` means the key is absent. -/
structure Chapter where
  chapter_number : Option Int := none
  title : Option String := none
  content : Option String := none
  summary : Option String := none
  key_events : Option PyVal := none
  character_development : Option PyVal := none
  cultural_elements_used : Option PyVal := none
  genre_elements_used : Option PyVal := none
  next_chapter_hooks : Option PyVal := none
deriving DecidableEq, Repr

/-- The four-field context bundle returned by `get_context_for_chapter`
(`context_manager.py` lines 150-155). -/
structure ContextBundle where
  previous_chapters : List ChapterSummary
  key_events : List String
  character_developments : List String
  open_hooks : List String
deriving DecidableEq, Repr

/-- `MAX_CONTEXT_ITEMS` from `config/settings.py`. -/
def MAX_CONTEXT_ITEMS : Nat := 15

/-- `CRITICAL_CONTEXT_WEIGHT` from `config/settings.py`. -/
def CRITICAL_CONTEXT_WEIGHT : Int := 3

/-- Python dict assignment `d[k] = v`: replaces the value of an existing key
in place, otherwise appends the new binding. -/
def dictSet {κ α : Type} [DecidableEq κ] : List (κ × α) → κ → α → List (κ × α)
  | [], k, v => [(k, v)]
  | (k', v') :: t, k, v =>
      if k' = k then (k, v) :: t else (k', v') :: dictSet t k v

/-- Python dict lookup `d.get(k)` / `d[k]` (keys are unique when the dict is
built through `dictSet`). -/
def dictGet? {κ α : Type} [DecidableEq κ] : List (κ × α) → κ → Option α
  | [], _ => none
  | (k', v') :: t, k => if k' = k then some v' else dictGet? t k

/-- Python `range(a, b)` as a list of integers. -/
def pyRange (a b : Int) : List Int :=
  (List.range (b - a).toNat).map (fun k => a + Int.ofNat k)

/-- Does the char list `hay` start with `needle`? -/
def charsStartWith : List Char → List Char → Bool
  | [], _ => true
  | _ :: _, [] => false
  | a :: as, b :: bs => a == b && charsStartWith as bs

/-- Does a char list contain `needle` as a contiguous segment? -/
def charsHasSeg (needle : List Char) : List Char → Bool
  | [] => needle.isEmpty
  | b :: bs => charsStartWith needle (b :: bs) || charsHasSeg needle bs

/-- Python substring test `needle in hay`. -/
def strIn (needle hay : String) : Bool :=
  charsHasSeg needle.toList hay.toList

instance {ε α : Type} [DecidableEq ε] [DecidableEq α] : DecidableEq (Except ε α) := fun x y =>
  match x, y with
  | .error a, .error b =>
      if h : a = b then .isTrue (congrArg Except.error h)
      else .isFalse (fun hc => h (Except.error.inj hc))
  | .ok a, .ok b =>
      if h : a = b then .isTrue (congrArg Except.ok h)
      else .isFalse (fun hc => h (Except.ok.inj hc))
  | .error _, .ok _ => .isFalse (fun hc => Except.noConfusion hc)
  | .ok _, .error _ => .isFalse (fun hc => Except.noConfusion hc)

/-- Python `str.lower()`, mapping `Char.toLower` over the characters (it
lowercases the basic latin letters, which covers every string the
embedded heuristics inspect). -/
def pyLower (s : String) : String :=
  String.mk (s.data.map Char.toLower)

/-- The `weight_map` lookup of `add_context_point` (`context_manager.py`
lines 92-98): `weight_map.get(importance.lower(), 2)`. -/
def weightOf (importance : String) : Int :=
  let l := pyLower importance
  if l = "low" then 1
  else if l = "medium" then 2
  else if l = "high" then 3
  else if l = "critical" then CRITICAL_CONTEXT_WEIGHT
  else 2

/-- `ContextManager.add_context_point` (`context_manager.py` lines 81-107). -/
def add_context_point (s : ContextManager) (content : String) (chapter : Int)
    (importance : String) (context_type : String) : ContextManager :=
  { s with context_points := s.context_points ++
      [{ content := content, chapter := chapter, importance := importance,
         type := context_type, weight := weightOf importance }] }

/-- Importance assigned to a key event (`context_manager.py` line 42):
high when the lowercased text contains "critical" or "important". -/
def eventImportance (event : String) : String :=
  if strIn "critical" (pyLower event) || strIn "important" (pyLower event)
  then "high" else "medium"

/-- Normalization applied to `key_events` / `next_chapter_hooks` before
iterating (`context_manager.py` lines 34-36 and 66-68): a bare string
becomes a one-item list (empty list for the empty string); iterating a
`None` value raises a `TypeError`. -/
def pyIterStrList : PyVal → Except String (List String)
  | .str t => .ok (if t = "" then [] else [t])
  | .lst l => .ok l
  | .pynone => .error "TypeError: NoneType object is not iterable"

/-- The chapter summary stored by `update_with_chapter`
(`context_manager.py` lines 26-30). -/
def summaryOf (c : Chapter) (chapter_num : Int) : ChapterSummary :=
  { title := c.title.getD ("Chapter " ++ toString chapter_num),
    summary := c.summary.getD "No summary available.",
    key_events := c.key_events.getD (.lst []) }

/-- Body of `ContextManager.update_with_chapter` up to (and excluding) the
final `_prune_context` call (`context_manager.py` lines 25-76). -/
def update_core (s : ContextManager) (c : Chapter) (chapter_num : Int) :
    Except String ContextManager :=
  let s0 : ContextManager :=
    { s with chapter_summaries :=
        dictSet s.chapter_summaries chapter_num (summaryOf c chapter_num) }
  match pyIterStrList (c.key_events.getD (.lst [])) with
  | .error e => .error e
  | .ok events =>
    let s1 := events.foldl
      (fun acc e => add_context_point acc e chapter_num (eventImportance e) "event") s0
    let s2 :=
      match c.character_development.getD (.str "") with
      | .str d =>
          if d ≠ "" then add_context_point s1 d chapter_num "high" "character_development"
          else s1
      | .lst l => l.foldl
          (fun acc d => add_context_point acc d chapter_num "high" "character_development") s1
      | .pynone => s1
    match pyIterStrList (c.next_chapter_hooks.getD (.lst [])) with
    | .error e => .error e
    | .ok hooks =>
      .ok (hooks.foldl
        (fun acc h => add_context_point acc h chapter_num "high" "hook") s2)

/-- Descending lexicographic comparison on the Python sort key
`(weight, chapter)`: `ptGe a b` holds when `a` may come before `b` in the
output of `sort(key=lambda x: (x["weight"], x["chapter"]), reverse=True)`,
i.e. higher weight first, ties broken by the more recent chapter first. -/
def ptGe (a b : ContextPoint) : Prop :=
  b.weight < a.weight ∨ (b.weight = a.weight ∧ b.chapter ≤ a.chapter)

instance : DecidableRel ptGe := fun a b => by
  unfold ptGe; infer_instance

instance : IsTotal ContextPoint ptGe :=
  ⟨fun a b => by unfold ptGe; omega⟩

instance : IsTrans ContextPoint ptGe :=
  ⟨fun a b c hab hbc => by unfold ptGe at *; omega⟩

/-- Python's stable `list.sort(key=lambda x: (x["weight"], x["chapter"]),
reverse=True)` (`context_manager.py` lines 138 and 163). -/
def sortPoints (l : List ContextPoint) : List ContextPoint :=
  List.insertionSort ptGe l

/-- `ContextManager._prune_context` (`context_manager.py` lines 157-166). -/
def prune_context (s : ContextManager) : ContextManager :=
  if s.context_points.length > MAX_CONTEXT_ITEMS * 3 then
    { s with context_points :=
        (sortPoints s.context_points).take (MAX_CONTEXT_ITEMS * 2) }
  else s

/-- `ContextManager.update_with_chapter` (`context_manager.py` lines 17-79):
the insertion phase followed by `_prune_context`. -/
def update_with_chapter (s : ContextManager) (c : Chapter) (chapter_num : Int) :
    Except String ContextManager :=
  (update_core s c chapter_num).map prune_context

/-- `ContextManager.get_context_for_chapter` (`context_manager.py` lines
109-155), in state-passing style: the second component is the state of the
manager after the call. -/
def get_context_for_chapter (s : ContextManager) (chapter_num : Int) :
    ContextBundle × ContextManager :=
  if chapter_num = 1 then
    ({ previous_chapters := [], key_events := [],
       character_developments := [], open_hooks := [] }, s)
  else
    let previous_chapters :=
      (pyRange 1 chapter_num).filterMap (fun i => dictGet? s.chapter_summaries i)
    let relevant_points :=
      s.context_points.filter (fun p => decide (p.chapter < chapter_num))
    let sorted := sortPoints relevant_points
    let key_events :=
      (sorted.filter (fun p => p.type == "event")).map (fun p => p.content)
    let character_developments :=
      (sorted.filter (fun p => p.type == "character_development")).map (fun p => p.content)
    let open_hooks :=
      (sorted.filter (fun p => p.type == "hook")).map (fun p => p.content)
    ({ previous_chapters := previous_chapters,
       key_events := key_events.take MAX_CONTEXT_ITEMS,
       character_developments := character_developments.take MAX_CONTEXT_ITEMS,
       open_hooks := open_hooks.take MAX_CONTEXT_ITEMS }, s)

/-- The event-type context point created for one key event
(`context_manager.py` lines 38-44). -/
def mkEventPoint (chapter_num : Int) (e : String) : ContextPoint :=
  { content := e, chapter := chapter_num, importance := eventImportance e,
    type := "event", weight := weightOf (eventImportance e) }

/-- A context point of importance "high" of the given type, as created for
character developments and hooks (`context_manager.py` lines 46-76). -/
def mkHighPoint (context_type : String) (chapter_num : Int) (x : String) : ContextPoint :=
  { content := x, chapter := chapter_num, importance := "high",
    type := context_type, weight := weightOf "high" }

/-- The character-development points created by `update_with_chapter`
(`context_manager.py` lines 46-62). -/
def cdPoints (c : Chapter) (chapter_num : Int) : List ContextPoint :=
  match c.character_development.getD (.str "") with
  | .str d =>
      if d ≠ "" then [mkHighPoint "character_development" chapter_num d] else []
  | .lst l => l.map (mkHighPoint "character_development" chapter_num)
  | .pynone => []

/-- Concrete store for the monotonic-visibility counterexample: fifteen
weight-3 event points from chapter 1. -/
def visState : ContextManager :=
  ContextManager.mk
    (List.replicate 15 (ContextPoint.mk "e" 1 "high" "event" 3)) []

/-- Concrete chapter record for the monotonic-visibility counterexample:
its single key event "x" carries no importance keyword. -/
def visChapter : Chapter :=
  { key_events := some (PyVal.str "x") }

/-- The store obtained from `visState` by `update_with_chapter visChapter 2`
(sixteen points, so no pruning fires). -/
def visAfter : ContextManager :=
  ContextManager.mk
    (List.replicate 15 (ContextPoint.mk "e" 1 "high" "event" 3) ++
      [ContextPoint.mk "x" 2 "medium" "event" 2])
    [(2, ChapterSummary.mk "Chapter 2" "No summary available." (PyVal.str "x"))]

/-- A per-chapter outline stub (`foundation.py` lines 166-205 and
`chapters.py` lines 262-272); `none` marks an absent dict key. -/
structure OutlineStub where
  chapter_number : Option Int := none
  title : Option String := none
  summary : Option String := none
  key_points : Option PyVal := none
  characters_involved : Option PyVal := none
  setting_details : Option String := none
  cultural_elements : Option PyVal := none
  genre_elements : Option PyVal := none
  narrative_progression : Option PyVal := none
deriving DecidableEq, Repr

/-- One genre-arc tracking dict (`chapters.py` lines 62-112); each field is
a dict key that may be absent (`none`). -/
structure ArcData where
  relationship_stages : Option (List String) := none
  mystery_elements : Option (List String) := none
  journey_stages : Option (List String) := none
  historical_elements : Option (List String) := none
  magical_elements : Option (List String) := none
  arc_stages : Option (List String) := none
  current_stage : Option Int := none
  current_element : Option Int := none
  emotional_beats : Option (List String) := none
  key_moments : Option (List String) := none
  revelations : Option (List String) := none
  open_questions : Option (List String) := none
  locations : Option (List String) := none
  achievements : Option (List String) := none
  historical_references : Option (List String) := none
  period_authentic_elements : Option (List String) := none
  magical_components : Option (List String) := none
  mythological_references : Option (List String) := none
  key_elements : Option (List String) := none
  genre_markers : Option (List String) := none
deriving DecidableEq, Repr

/-- The arc dict created for one genre by
`ChapterGenerator._initialize_genre_arcs` (`chapters.py` lines 65-110). -/
def arcDataFor (genre : String) : ArcData :=
  let gl := pyLower genre
  if strIn "romance" gl then
    { relationship_stages := some ["Initial meeting", "Attraction", "Obstacles",
        "Growth", "Resolution"],
      current_stage := some 0, emotional_beats := some [], key_moments := some [] }
  else if strIn "mystery" gl then
    { mystery_elements := some ["Initial problem", "Clues", "Red herrings",
        "Revelations", "Solution"],
      current_element := some 0, revelations := some [], open_questions := some [] }
  else if strIn "adventure" gl then
    { journey_stages := some ["Call to adventure", "Challenges", "Trials",
        "Climactic challenge", "Return"],
      current_stage := some 0, locations := some [], achievements := some [] }
  else if strIn "historical" gl || strIn "period" gl then
    { historical_elements := some ["Setting establishment", "Period tensions",
        "Historical events", "Character adaptation", "Resolution"],
      current_element := some 0, historical_references := some [],
      period_authentic_elements := some [] }
  else if strIn "fantasy" gl || strIn "mytholog" gl then
    { magical_elements := some ["World rules", "Magic introduction",
        "Powers development", "Magical conflict", "Magical resolution"],
      current_element := some 0, magical_components := some [],
      mythological_references := some [] }
  else
    { arc_stages := some ["Introduction", "Development", "Complication",
        "Climax", "Resolution"],
      current_stage := some 0, key_elements := some [], genre_markers := some [] }

/-- `ChapterGenerator._initialize_genre_arcs` over the genre list. -/
def init_genre_arcs (genres : List String) : List (String × ArcData) :=
  genres.foldl (fun d genre => dictSet d genre (arcDataFor genre)) []

/-- Python `int(a/b * L)` for integers `a`, `b > 0`, `L`: the exact value
`a*L/b` truncated toward zero (`Int.div` is toward-zero division). -/
def pyTruncMulDiv (a : Int) (l : Nat) (b : Nat) : Int :=
  Int.tdiv (a * (l : Int)) (b : Int)

/-- The stage index `min(int(chapter_position * len(stages)), len(stages) - 1)`
computed from `chapter_position = chapter_num / total` (`chapters.py`
lines 313, 319, 325, 401). -/
def stagePosIdx (chapter_num : Int) (total : Nat) (stageCount : Nat) : Int :=
  min (pyTruncMulDiv chapter_num stageCount total) ((stageCount : Int) - 1)

/-- Python list indexing `l[i]`, including negative-index wrap-around;
raises `IndexError` when out of range. -/
def pyIndex {α : Type} (l : List α) (i : Int) : Except String α :=
  let j : Int := if 0 ≤ i then i else (l.length : Int) + i
  if h : 0 ≤ j ∧ j < (l.length : Int) then
    .ok (l.get ⟨j.toNat, by omega⟩)
  else .error "IndexError: list index out of range"

/-- One `genre_stages` entry of `_determine_genre_emphasis`
(`chapters.py` lines 313-329). -/
structure StageInfo where
  current_stage : String
  emphasis : String
deriving DecidableEq, Repr

/-- The guidance dict returned by `_determine_genre_emphasis`
(`chapters.py` lines 332-340). -/
structure GenreEmphasis where
  chapter_position : String
  narrative_phase : String
  focus : String
  primary_genre : String
  secondary_genre : String
  genre_stages : List (String × StageInfo)
  blend_recommendation : String
deriving DecidableEq, Repr

/-- The parts of a `ChapterGenerator` instance read by the embedded logic:
the outline's chapter list, the genre list and the genre-arc dict (the
remaining constructor fields only feed the external prompt). -/
structure GeneratorState where
  story_chapters : List OutlineStub
  genres : List String
  genre_arcs : List (String × ArcData)
deriving DecidableEq, Repr

/-- `ChapterGenerator._get_chapter_outline` (`chapters.py` lines 245-272). -/
def get_chapter_outline (g : GeneratorState) (chapter_num : Int) : OutlineStub :=
  match g.story_chapters.find? (fun ch => ch.chapter_number == some chapter_num) with
  | some ch => ch
  | none =>
      { chapter_number := some chapter_num,
        title := some ("Chapter " ++ toString chapter_num),
        summary := some "No summary available.",
        key_points := some (.lst []),
        characters_involved := some (.lst []),
        setting_details := some "",
        cultural_elements := some (.lst []),
        genre_elements := some (.lst []) }

/-- The `current_stage`/`emphasis` entry computed for one stage list in
`_determine_genre_emphasis` (`chapters.py` lines 313-329). -/
def stageEntry (chapter_num : Int) (total : Nat) (primary secondary genre : String)
    (stages : List String) : Except String StageInfo := do
  let idx := stagePosIdx chapter_num total stages.length
  let cur ← pyIndex stages idx
  pure (StageInfo.mk cur
    (if genre = primary then "primary"
     else if genre = secondary then "secondary" else "background"))

/-- The `genre_stages` loop of `_determine_genre_emphasis` (`chapters.py`
lines 309-330): only arcs holding `arc_stages`, `relationship_stages` or
`mystery_elements` (checked in that order) contribute an entry. -/
def genreStagesFold (arcs : List (String × ArcData)) (chapter_num : Int)
    (total : Nat) (primary secondary : String) :
    Except String (List (String × StageInfo)) :=
  arcs.foldlM (fun acc p =>
    match p.2.arc_stages with
    | some stages => do
        let e ← stageEntry chapter_num total primary secondary p.1 stages
        pure (acc ++ [(p.1, e)])
    | none =>
      match p.2.relationship_stages with
      | some stages => do
          let e ← stageEntry chapter_num total primary secondary p.1 stages
          pure (acc ++ [(p.1, e)])
      | none =>
        match p.2.mystery_elements with
        | some stages => do
            let e ← stageEntry chapter_num total primary secondary p.1 stages
            pure (acc ++ [(p.1, e)])
        | none => pure acc) []

/-- `ChapterGenerator._determine_genre_emphasis` (`chapters.py` lines
274-342); the float chapter position `chapter_num / total` is modelled by
exact integer fraction comparisons.  Division or modulo by zero (no
chapters, no genres) raises. -/
def determine_genre_emphasis (g : GeneratorState) (chapter_num : Int) :
    Except String GenreEmphasis :=
  let total := g.story_chapters.length
  if total = 0 then .error "ZeroDivisionError: division by zero" else
  let fp : String × String :=
    if chapter_num * 4 ≤ (total : Int) then ("establishing", "introduction")
    else if chapter_num * 4 ≤ 3 * (total : Int) then ("developing", "complication")
    else ("resolving", "resolution")
  if g.genres.length = 0 then .error "ZeroDivisionError: integer modulo by zero" else
  let primary_index := (chapter_num - 1) % (g.genres.length : Int)
  let secondary_index := (primary_index + 1) % (g.genres.length : Int)
  let primary_genre := g.genres.getD primary_index.toNat ""
  let secondary_genre := g.genres.getD secondary_index.toNat ""
  match genreStagesFold g.genre_arcs chapter_num total primary_genre secondary_genre with
  | .error e => .error e
  | .ok genre_stages =>
    .ok { chapter_position := toString chapter_num ++ "/" ++ toString total,
          narrative_phase := fp.2,
          focus := fp.1,
          primary_genre := primary_genre,
          secondary_genre := secondary_genre,
          genre_stages := genre_stages,
          blend_recommendation := "This chapter should primarily emphasize " ++
            primary_genre ++ " elements while incorporating supporting elements from " ++
            secondary_genre ++ "." }

/-- Coercion of one list-typed field in `_validate_chapter_fields`
(`chapters.py` lines 205-239): absent or `None` becomes `[]`, a string is
wrapped (empty string becomes `[]`), a list stays unchanged. -/
def validateListField (v : Option PyVal) : PyVal :=
  match v with
  | none => .lst []
  | some (.str s) => if s ≠ "" then .lst [s] else .lst []
  | some .pynone => .lst []
  | some (.lst l) => .lst l

/-- `ChapterGenerator._validate_chapter_fields` (`chapters.py` lines
195-243); `character_development` is deliberately left untouched. -/
def validate_chapter_fields (c : Chapter) : Chapter :=
  { c with
      key_events := some (validateListField c.key_events),
      next_chapter_hooks := some (validateListField c.next_chapter_hooks),
      cultural_elements_used := some (validateListField c.cultural_elements_used),
      genre_elements_used := some (validateListField c.genre_elements_used) }

/-- Python `arc_data[key].append(x)`: raises `KeyError` when the key is
absent from the arc dict. -/
def pyAppend (v : Option (List String)) (x : String) : Except String (List String) :=
  match v with
  | none => .error "KeyError"
  | some l => .ok (l ++ [x])

/-- The per-element, per-arc update of `_update_genre_arcs` (`chapters.py`
lines 360-389). -/
def updArcElement (element : String) (genre : String) (arc : ArcData) :
    Except String ArcData := do
  let el := pyLower element
  let gl := pyLower genre
  let arc2 ←
    if strIn "romance" gl && (strIn "relationship" el || strIn "romantic" el) then do
      let km ← pyAppend arc.key_moments element
      let a := { arc with key_moments := some km }
      if strIn "emotional" el then do
        let eb ← pyAppend a.emotional_beats element
        pure { a with emotional_beats := some eb }
      else pure a
    else if strIn "mystery" gl &&
        (strIn "clue" el || strIn "reveal" el || strIn "mystery" el) then
      if strIn "reveal" el || strIn "solution" el then do
        let r ← pyAppend arc.revelations element
        pure { arc with revelations := some r }
      else do
        let q ← pyAppend arc.open_questions element
        pure { arc with open_questions := some q }
    else if strIn "adventure" gl &&
        (strIn "journey" el || strIn "challenge" el || strIn "quest" el) then do
      let a ←
        if strIn "location" el || strIn "place" el then do
          let lo ← pyAppend arc.locations element
          pure { arc with locations := some lo }
        else pure arc
      if strIn "achieve" el || strIn "overcome" el then do
        let ac ← pyAppend a.achievements element
        pure { a with achievements := some ac }
      else pure a
    else pure arc
  if strIn gl el then do
    let ke ← pyAppend arc2.key_elements element
    let gm ← pyAppend arc2.genre_markers element
    pure { arc2 with key_elements := some ke, genre_markers := some gm }
  else pure arc2

/-- First stage list present in an arc dict, in the key order of
`chapters.py` lines 397-398 and 430-431. -/
def firstStageList (arc : ArcData) : Option (List String) :=
  (arc.arc_stages.orElse (fun _ =>
    arc.relationship_stages.orElse (fun _ =>
      arc.mystery_elements.orElse (fun _ =>
        arc.journey_stages.orElse (fun _ =>
          arc.historical_elements.orElse (fun _ => arc.magical_elements))))))

/-- The stage-index recomputation at the end of `_update_genre_arcs`
(`chapters.py` lines 391-403). -/
def setStageIdx (total : Nat) (chapter_num : Int) (arc : ArcData) : ArcData :=
  match firstStageList arc with
  | some stages =>
      { arc with current_stage := some (stagePosIdx chapter_num total stages.length) }
  | none => arc

/-- `ChapterGenerator._update_genre_arcs` (`chapters.py` lines 344-403). -/
def update_genre_arcs (arcs : List (String × ArcData)) (total : Nat)
    (c : Chapter) (chapter_num : Int) : Except String (List (String × ArcData)) := do
  let elements ←
    match c.genre_elements_used.getD (.lst []) with
    | .str s => pure [s]
    | .lst l => pure l
    | .pynone => Except.error "TypeError: NoneType object is not iterable"
  let arcs2 ← elements.foldlM
    (fun acc e => acc.mapM (fun p => do
        let a ← updArcElement e p.1 p.2
        pure (p.1, a))) arcs
  if total = 0 then Except.error "ZeroDivisionError: division by zero"
  else pure (arcs2.map (fun p => (p.1, setStageIdx total chapter_num p.2)))

/-- `ChapterGenerator._get_genre_trajectory` (`chapters.py` lines 405-440). -/
def get_genre_trajectory (arcs : List (String × ArcData)) (genres : List String)
    (total : Nat) (next_chapter_num : Int) : Except String String :=
  if next_chapter_num > (total : Int) then
    .ok "This is the conclusion - all genre elements should be resolved."
  else if genres.length = 0 then .error "ZeroDivisionError: integer modulo by zero"
  else
    let primary_index := (next_chapter_num - 1) % (genres.length : Int)
    let primary_genre := genres.getD primary_index.toNat ""
    match arcs.find? (fun p => p.1 == primary_genre) with
    | none => .ok ("Next chapter should advance the " ++ primary_genre ++
        " elements toward development.")
    | some p =>
      match firstStageList p.2 with
      | none => .ok ("Next chapter should advance the " ++ primary_genre ++
          " elements toward development.")
      | some stages => do
          let cur := p.2.current_stage.getD 0
          let nxt ← pyIndex stages (min (cur + 1) ((stages.length : Int) - 1))
          pure ("Next chapter should advance the " ++ primary_genre ++
            " elements toward " ++ nxt ++ ".")

/-- `ChapterGenerator._get_default_genre_elements` (`chapters.py` lines
442-497). -/
def get_default_genre_elements (g : GeneratorState) (chapter_num : Int) :
    Except String (List String) :=
  let total := g.story_chapters.length
  if total = 0 then .error "ZeroDivisionError: division by zero" else
  let phase :=
    if chapter_num * 4 ≤ (total : Int) then "introduction"
    else if chapter_num * 4 ≤ 3 * (total : Int) then "development"
    else "resolution"
  .ok (g.genres.map (fun genre =>
    let gl := pyLower genre
    if strIn "romance" gl then
      if phase = "introduction" then "Initial attraction between characters (Romance)"
      else if phase = "development" then "Relationship complications and growth (Romance)"
      else "Romantic resolution or commitment (Romance)"
    else if strIn "mystery" gl then
      if phase = "introduction" then "Mystery setup and initial clues (Mystery)"
      else if phase = "development" then "Investigation progress and red herrings (Mystery)"
      else "Mystery revelation and resolution (Mystery)"
    else if strIn "adventure" gl then
      if phase = "introduction" then "Journey beginning and initial challenges (Adventure)"
      else if phase = "development" then "Overcoming obstacles and character growth (Adventure)"
      else "Final challenge and triumphant return (Adventure)"
    else genre ++ " elements appropriate for the " ++ phase ++ " phase"))

/-- The fallback chapter built in the `except` branch of
`generate_chapter` (`chapters.py` lines 178-191). -/
def fallback_chapter (g : GeneratorState) (outline : OutlineStub)
    (chapter_num : Int) : Except String Chapter :=
  match get_default_genre_elements g chapter_num with
  | .error e => .error e
  | .ok els =>
    .ok { chapter_number := some chapter_num,
          title := some (outline.title.getD ("Chapter " ++ toString chapter_num)),
          content := some "Error generating chapter content.",
          summary := some (outline.summary.getD "Summary not available."),
          key_events := some (.lst []),
          character_development := some (.str "No character development tracked."),
          cultural_elements_used := some (.lst []),
          genre_elements_used := some (.lst els),
          next_chapter_hooks := some (.lst []) }

/-- The post-parse processing inside the `try` block of `generate_chapter`
(`chapters.py` lines 162-176): number the chapter, validate fields, update
the genre arcs and append the genre trajectory to the hooks. -/
def process_parsed (g : GeneratorState) (raw : Chapter) (chapter_num : Int) :
    Except String (Chapter × List (String × ArcData)) := do
  let c1 := { raw with chapter_number := some chapter_num }
  let c2 := validate_chapter_fields c1
  let total := g.story_chapters.length
  let arcs2 ← update_genre_arcs g.genre_arcs total c2 chapter_num
  let hooks :=
    match c2.next_chapter_hooks.getD (.lst []) with
    | .lst l => l
    | .str s => [s]
    | .pynone => []
  let hooks := if hooks.isEmpty then [] else hooks
  let hooks2 ←
    if "genre_trajectory" ∈ hooks then pure hooks
    else do
      let traj ← get_genre_trajectory arcs2 g.genres total (chapter_num + 1)
      pure (hooks ++ [traj])
  pure ({ c2 with next_chapter_hooks := some (.lst hooks2) }, arcs2)

/-- `ChapterGenerator.generate_chapter` (`chapters.py` lines 114-193) as a
function of the parse outcome of the external generation call: any parse
or post-parse failure inside the `try` block degrades to the fallback
chapter, while the pre-parse `_determine_genre_emphasis` call may raise. -/
def generate_chapter (g : GeneratorState) (chapter_num : Int)
    (parsed : Except String Chapter) :
    Except String (Chapter × List (String × ArcData)) :=
  let chapter_outline := get_chapter_outline g chapter_num
  match determine_genre_emphasis g chapter_num with
  | .error e => .error e
  | .ok _ =>
    match parsed with
    | .error _ =>
        match fallback_chapter g chapter_outline chapter_num with
        | .ok ch => .ok (ch, g.genre_arcs)
        | .error e => .error e
    | .ok raw =>
        match process_parsed g raw chapter_num with
        | .ok r => .ok r
        | .error _ =>
            match fallback_chapter g chapter_outline chapter_num with
            | .ok ch => .ok (ch, g.genre_arcs)
            | .error e => .error e

/-- The placeholder stub appended for chapter `i+1` by
`StoryFoundation._generate_chapter_outlines` (`foundation.py` lines
168-179 and 194-205). -/
def outline_pad_stub (genres_str narrative_pacing : String) (i : Nat) : OutlineStub :=
  { chapter_number := some (Int.ofNat (i + 1)),
    title := some ("Chapter " ++ toString (i + 1)),
    summary := some "To be determined",
    key_points := some (.lst []),
    characters_involved := some (.lst []),
    setting_details := some "",
    cultural_elements := some (.lst []),
    genre_elements := some (.str ("Incorporating elements of " ++ genres_str)),
    narrative_progression := some (.str ("Moving forward with " ++
      narrative_pacing ++ " pace")) }

/-- The default-filling loop of `_generate_chapter_outlines`
(`foundation.py` lines 184-189). -/
def ensure_outline_fields (genres_str narrative_pacing : String)
    (ch : OutlineStub) : OutlineStub :=
  let ch2 :=
    if ch.genre_elements.isNone then
      { ch with genre_elements := some (.str ("Incorporating elements of " ++ genres_str)) }
    else ch
  if ch2.narrative_progression.isNone then
    { ch2 with narrative_progression := some (.str ("Moving forward with " ++ narrative_pacing ++ " pace")) }
  else ch2

/-- `StoryFoundation._generate_chapter_outlines` (`foundation.py` lines
119-207) as a function of the parse outcome: `parsed = ok v` models a
successful parse whose `chapters` key holds `v` (`none` when the key is
absent), and `parsed = error _` models a parse failure. -/
def generate_chapter_outlines (num_chapters : Nat) (genres : List String)
    (narrative_pacing : String)
    (parsed : Except String (Option (List OutlineStub))) : List OutlineStub :=
  let genres_str := String.intercalate ", " genres
  match parsed with
  | .error _ =>
      (List.range num_chapters).map (outline_pad_stub genres_str narrative_pacing)
  | .ok result =>
      let chapter_outlines := result.getD []
      let chapter_outlines :=
        if chapter_outlines.length < num_chapters then
          chapter_outlines ++ ((List.range num_chapters).drop
            chapter_outlines.length).map (outline_pad_stub genres_str narrative_pacing)
        else if chapter_outlines.length > num_chapters then
          chapter_outlines.take num_chapters
        else chapter_outlines
      chapter_outlines.map (ensure_outline_fields genres_str narrative_pacing)

/-- The concrete end-to-end configuration of the spec's scenario:
genres = ["Mystery"], four chapters. -/
def mysteryFour : GeneratorState :=
  { story_chapters := (List.range 4).map
      (fun i => ({ chapter_number := some (Int.ofNat (i + 1)) } : OutlineStub)),
    genres := ["Mystery"],
    genre_arcs := init_genre_arcs ["Mystery"] }

/-- C4: for every store state, `get_context_for_chapter(1)` returns the
all-empty bundle `{previous_chapters: [], key_events: [],
character_developments: [], open_hooks: []}`. -/
theorem first_chapter_isolation (s : ContextManager) :
    (get_context_for_chapter s 1).1 = ContextBundle.mk [] [] [] [] :=
  rfl

/-- C9: `get_context_for_chapter` is side-effect-free (it leaves the store,
its points, weights and insertion order, and its summaries unchanged and
performs no pruning) and deterministic (two calls with the same state and
chapter number return equal bundles). -/
theorem retrieval_read_only (s : ContextManager) (n : Int) :
    (get_context_for_chapter s n).2 = s ∧
    (get_context_for_chapter s n).1 = (get_context_for_chapter s n).1 := by
  refine ⟨?_, rfl⟩
  unfold get_context_for_chapter
  split <;> rfl

/-- C10: for `chapter_num ≤ 0`, when every stored point has a non-negative
chapter number, `get_context_for_chapter` raises nothing and returns the
same all-empty bundle as for chapter 1. -/
theorem nonpositive_chapter_empty (s : ContextManager) (n : Int)
    (hn : n ≤ 0) (hpts : ∀ p ∈ s.context_points, 0 ≤ p.chapter) :
    (get_context_for_chapter s n).1 = (get_context_for_chapter s 1).1 ∧
    (get_context_for_chapter s n).1 = ContextBundle.mk [] [] [] [] := by
  have hne : ¬ n = 1 := by omega
  have hrange : pyRange 1 n = [] := by
    unfold pyRange
    have : (n - 1).toNat = 0 := by omega
    rw [this]
    rfl
  have hfilter : s.context_points.filter (fun p => decide (p.chapter < n)) = [] := by
    rw [List.filter_eq_nil_iff]
    intro p hp
    have := hpts p hp
    simp only [decide_eq_true_eq]
    omega
  constructor
  · rw [first_chapter_isolation]
    unfold get_context_for_chapter
    rw [if_neg hne, hrange, hfilter]
    rfl
  · unfold get_context_for_chapter
    rw [if_neg hne, hrange, hfilter]
    rfl

/-- Witness for C10 at a concrete store and chapter number. -/
theorem nonpositive_chapter_empty_witness :
    (get_context_for_chapter
        (ContextManager.mk [ContextPoint.mk "e" 0 "high" "event" 3]
          [(1, ChapterSummary.mk "T" "S" (PyVal.lst []))]) (-2)).1 =
      (get_context_for_chapter
        (ContextManager.mk [ContextPoint.mk "e" 0 "high" "event" 3]
          [(1, ChapterSummary.mk "T" "S" (PyVal.lst []))]) 1).1 ∧
    (get_context_for_chapter
        (ContextManager.mk [ContextPoint.mk "e" 0 "high" "event" 3]
          [(1, ChapterSummary.mk "T" "S" (PyVal.lst []))]) (-2)).1 =
      ContextBundle.mk [] [] [] [] :=
  nonpositive_chapter_empty _ _ (by decide) (by decide)

/-- C1: for chapter numbers above 1 the retrieval pipeline filters the
stored points to `chapter < n`, stably sorts them descending by
`(weight, chapter)` (the sorted list is a permutation of the filtered one
and is ordered by `ptGe`), partitions by type preserving that order, and
truncates each of the three lists independently to `MAX_CONTEXT_ITEMS`;
consequently each returned list has length at most `MAX_CONTEXT_ITEMS`. -/
theorem retrieval_pipeline (s : ContextManager) (n : Int) (hn : 1 < n) :
    let filtered := s.context_points.filter (fun p => decide (p.chapter < n))
    let sorted := sortPoints filtered
    let b := (get_context_for_chapter s n).1
    b.key_events =
      ((sorted.filter (fun p => p.type == "event")).map (fun p => p.content)).take
        MAX_CONTEXT_ITEMS ∧
    b.character_developments =
      ((sorted.filter (fun p => p.type == "character_development")).map
        (fun p => p.content)).take MAX_CONTEXT_ITEMS ∧
    b.open_hooks =
      ((sorted.filter (fun p => p.type == "hook")).map (fun p => p.content)).take
        MAX_CONTEXT_ITEMS ∧
    sorted.Perm filtered ∧ List.Sorted ptGe sorted ∧
    b.key_events.length ≤ MAX_CONTEXT_ITEMS ∧
    b.character_developments.length ≤ MAX_CONTEXT_ITEMS ∧
    b.open_hooks.length ≤ MAX_CONTEXT_ITEMS := by
  intro filtered sorted b
  have hne : ¬ n = 1 := by omega
  have hb : b = (get_context_for_chapter s n).1 := rfl
  unfold get_context_for_chapter at hb
  rw [if_neg hne] at hb
  refine ⟨by rw [hb], by rw [hb], by rw [hb],
    List.perm_insertionSort ptGe filtered,
    List.sorted_insertionSort ptGe filtered, ?_, ?_, ?_⟩ <;>
    rw [hb] <;> simp [List.length_take]

/-- Witness for C1 at a concrete store and chapter number. -/
theorem retrieval_pipeline_witness :
    let s := ContextManager.mk
      [ContextPoint.mk "a" 1 "medium" "event" 2,
       ContextPoint.mk "b" 1 "high" "event" 3,
       ContextPoint.mk "c" 1 "high" "hook" 3] []
    let filtered := s.context_points.filter (fun p => decide (p.chapter < 2))
    let sorted := sortPoints filtered
    let b := (get_context_for_chapter s 2).1
    b.key_events =
      ((sorted.filter (fun p => p.type == "event")).map (fun p => p.content)).take
        MAX_CONTEXT_ITEMS ∧
    b.character_developments =
      ((sorted.filter (fun p => p.type == "character_development")).map
        (fun p => p.content)).take MAX_CONTEXT_ITEMS ∧
    b.open_hooks =
      ((sorted.filter (fun p => p.type == "hook")).map (fun p => p.content)).take
        MAX_CONTEXT_ITEMS ∧
    sorted.Perm filtered ∧ List.Sorted ptGe sorted ∧
    b.key_events.length ≤ MAX_CONTEXT_ITEMS ∧
    b.character_developments.length ≤ MAX_CONTEXT_ITEMS ∧
    b.open_hooks.length ≤ MAX_CONTEXT_ITEMS :=
  retrieval_pipeline
    (ContextManager.mk
      [ContextPoint.mk "a" 1 "medium" "event" 2,
       ContextPoint.mk "b" 1 "high" "event" 3,
       ContextPoint.mk "c" 1 "high" "hook" 3] []) 2 (by decide)

/-- C2: every successful `update_with_chapter` call ends with the pruning
policy: when the inserted state holds more than `3 * MAX_CONTEXT_ITEMS`
points they are sorted descending by `(weight, chapter)` and truncated to
the top `2 * MAX_CONTEXT_ITEMS` (the rest is discarded), otherwise the
points are left untouched; hence the final store holds at most
`3 * MAX_CONTEXT_ITEMS` points, and at most `2 * MAX_CONTEXT_ITEMS` when
the inserted state exceeded `3 * MAX_CONTEXT_ITEMS`. -/
theorem pruning_bound (s : ContextManager) (c : Chapter) (n : Int)
    (m : ContextManager) (h : update_core s c n = Except.ok m) :
    update_with_chapter s c n = Except.ok (prune_context m) ∧
    (m.context_points.length > MAX_CONTEXT_ITEMS * 3 →
      (prune_context m).context_points =
        (sortPoints m.context_points).take (MAX_CONTEXT_ITEMS * 2)) ∧
    (¬ m.context_points.length > MAX_CONTEXT_ITEMS * 3 →
      prune_context m = m) ∧
    (prune_context m).context_points.length ≤ MAX_CONTEXT_ITEMS * 3 ∧
    (m.context_points.length > MAX_CONTEXT_ITEMS * 3 →
      (prune_context m).context_points.length ≤ MAX_CONTEXT_ITEMS * 2) := by
  refine ⟨by rw [update_with_chapter, h]; rfl, ?_, ?_, ?_, ?_⟩
  · intro hgt
    unfold prune_context
    rw [if_pos hgt]
  · intro hle
    unfold prune_context
    rw [if_neg hle]
  · unfold prune_context
    split
    · simp only [List.length_take]
      omega
    · omega
  · intro hgt
    unfold prune_context
    rw [if_pos hgt]
    simp only [List.length_take]
    omega

/-- Witness for C2 at a concrete store (47 points, so the prune fires and
the store shrinks to 30). -/
theorem pruning_bound_witness :
    update_with_chapter
        (ContextManager.mk
          (List.replicate 46 (ContextPoint.mk "e" 1 "high" "event" 3)) [])
        (Chapter.mk none none none none (some (PyVal.str "x")) none none none none) 2 =
      Except.ok (prune_context
        (ContextManager.mk
          (List.replicate 46 (ContextPoint.mk "e" 1 "high" "event" 3) ++
            [ContextPoint.mk "x" 2 "medium" "event" 2])
          [(2, ChapterSummary.mk "Chapter 2" "No summary available."
            (PyVal.str "x"))])) ∧
    ((ContextManager.mk
        (List.replicate 46 (ContextPoint.mk "e" 1 "high" "event" 3) ++
          [ContextPoint.mk "x" 2 "medium" "event" 2])
        [(2, ChapterSummary.mk "Chapter 2" "No summary available."
          (PyVal.str "x"))]).context_points.length > MAX_CONTEXT_ITEMS * 3 →
      (prune_context (ContextManager.mk
        (List.replicate 46 (ContextPoint.mk "e" 1 "high" "event" 3) ++
          [ContextPoint.mk "x" 2 "medium" "event" 2])
        [(2, ChapterSummary.mk "Chapter 2" "No summary available."
          (PyVal.str "x"))])).context_points =
        (sortPoints (ContextManager.mk
          (List.replicate 46 (ContextPoint.mk "e" 1 "high" "event" 3) ++
            [ContextPoint.mk "x" 2 "medium" "event" 2])
          [(2, ChapterSummary.mk "Chapter 2" "No summary available."
            (PyVal.str "x"))]).context_points).take (MAX_CONTEXT_ITEMS * 2)) ∧
    (¬ (ContextManager.mk
        (List.replicate 46 (ContextPoint.mk "e" 1 "high" "event" 3) ++
          [ContextPoint.mk "x" 2 "medium" "event" 2])
        [(2, ChapterSummary.mk "Chapter 2" "No summary available."
          (PyVal.str "x"))]).context_points.length > MAX_CONTEXT_ITEMS * 3 →
      prune_context (ContextManager.mk
        (List.replicate 46 (ContextPoint.mk "e" 1 "high" "event" 3) ++
          [ContextPoint.mk "x" 2 "medium" "event" 2])
        [(2, ChapterSummary.mk "Chapter 2" "No summary available."
          (PyVal.str "x"))]) =
        ContextManager.mk
          (List.replicate 46 (ContextPoint.mk "e" 1 "high" "event" 3) ++
            [ContextPoint.mk "x" 2 "medium" "event" 2])
          [(2, ChapterSummary.mk "Chapter 2" "No summary available."
            (PyVal.str "x"))]) ∧
    (prune_context (ContextManager.mk
      (List.replicate 46 (ContextPoint.mk "e" 1 "high" "event" 3) ++
        [ContextPoint.mk "x" 2 "medium" "event" 2])
      [(2, ChapterSummary.mk "Chapter 2" "No summary available."
        (PyVal.str "x"))])).context_points.length ≤ MAX_CONTEXT_ITEMS * 3 ∧
    ((ContextManager.mk
        (List.replicate 46 (ContextPoint.mk "e" 1 "high" "event" 3) ++
          [ContextPoint.mk "x" 2 "medium" "event" 2])
        [(2, ChapterSummary.mk "Chapter 2" "No summary available."
          (PyVal.str "x"))]).context_points.length > MAX_CONTEXT_ITEMS * 3 →
      (prune_context (ContextManager.mk
        (List.replicate 46 (ContextPoint.mk "e" 1 "high" "event" 3) ++
          [ContextPoint.mk "x" 2 "medium" "event" 2])
        [(2, ChapterSummary.mk "Chapter 2" "No summary available."
          (PyVal.str "x"))])).context_points.length ≤ MAX_CONTEXT_ITEMS * 2) :=
  pruning_bound
    (ContextManager.mk
      (List.replicate 46 (ContextPoint.mk "e" 1 "high" "event" 3)) [])
    (Chapter.mk none none none none (some (PyVal.str "x")) none none none none) 2
    (ContextManager.mk
      (List.replicate 46 (ContextPoint.mk "e" 1 "high" "event" 3) ++
        [ContextPoint.mk "x" 2 "medium" "event" 2])
      [(2, ChapterSummary.mk "Chapter 2" "No summary available."
        (PyVal.str "x"))])
    (by decide)


/-- A loop of `add_context_point` calls appends one point per item. -/
theorem foldl_add_points (n : Int) (imp : String → String) (ty : String) :
    ∀ (l : List String) (s : ContextManager),
      l.foldl (fun acc e => add_context_point acc e n (imp e) ty) s =
      { s with context_points := s.context_points ++
          l.map (fun e => ContextPoint.mk e n (imp e) ty (weightOf (imp e))) }
  | [], s => by
      simp
  | e :: t, s => by
      rw [List.foldl_cons, foldl_add_points n imp ty t]
      simp [add_context_point]

/-- Unfolding lemma for mapped event points. -/
theorem map_mkEventPoint (n : Int) (l : List String) :
    l.map (mkEventPoint n) =
    l.map (fun e => ContextPoint.mk e n (eventImportance e) "event"
      (weightOf (eventImportance e))) :=
  rfl

/-- Unfolding lemma for mapped high-importance points. -/
theorem map_mkHighPoint (ty : String) (n : Int) (l : List String) :
    l.map (mkHighPoint ty n) =
    l.map (fun x => ContextPoint.mk x n "high" ty (weightOf "high")) :=
  rfl

/-- Shape of a successful `update_core` run: the summary is upserted under
the chapter number and the new points are appended in source order
(events, then character developments, then hooks). -/
theorem update_core_ok_shape (s : ContextManager) (c : Chapter) (n : Int)
    (m : ContextManager) (h : update_core s c n = Except.ok m) :
    ∃ ev hk,
      pyIterStrList (c.key_events.getD (.lst [])) = Except.ok ev ∧
      pyIterStrList (c.next_chapter_hooks.getD (.lst [])) = Except.ok hk ∧
      m.chapter_summaries = dictSet s.chapter_summaries n (summaryOf c n) ∧
      m.context_points = s.context_points ++ ev.map (mkEventPoint n) ++
        cdPoints c n ++ hk.map (mkHighPoint "hook" n) := by
  unfold update_core at h
  cases hke : pyIterStrList (c.key_events.getD (.lst [])) with
  | error e => rw [hke] at h; cases h
  | ok ev =>
  rw [hke] at h
  cases hhk : pyIterStrList (c.next_chapter_hooks.getD (.lst [])) with
  | error e => simp only [hhk] at h; cases h
  | ok hk =>
  simp only [hhk] at h
  refine ⟨ev, hk, rfl, rfl, ?_, ?_⟩ <;>
    rw [← Except.ok.inj h] <;> clear h <;>
    cases hcd : c.character_development.getD (.str "") <;>
    simp only [foldl_add_points] <;>
    (try simp only [add_context_point]) <;>
    (try split) <;>
    simp_all [cdPoints, mkEventPoint, mkHighPoint, map_mkEventPoint, map_mkHighPoint]

/-- C5: a chapter whose `key_events` is a single string creates exactly one
event-type context point carrying the whole string when the string is
non-empty, and none when it is empty; no other point created by the call
has type "event"; and the event's importance is "high" exactly when the
text contains "critical" or "important" case-insensitively, else
"medium". -/
theorem string_key_event_normalization (s : ContextManager) (c : Chapter)
    (n : Int) (t : String) (m : ContextManager)
    (hke : c.key_events = some (PyVal.str t))
    (h : update_core s c n = Except.ok m) :
    update_with_chapter s c n = Except.ok (prune_context m) ∧
    ∃ rest,
      m.context_points = s.context_points ++
        (if t = "" then [] else [mkEventPoint n t]) ++ rest ∧
      (∀ p ∈ rest, p.type ≠ "event") ∧
      (mkEventPoint n t).content = t ∧
      (mkEventPoint n t).type = "event" ∧
      (mkEventPoint n t).chapter = n ∧
      ((mkEventPoint n t).importance = "high" ↔
        (strIn "critical" (pyLower t) || strIn "important" (pyLower t)) = true) ∧
      ((strIn "critical" (pyLower t) || strIn "important" (pyLower t)) = false →
        (mkEventPoint n t).importance = "medium") := by
  obtain ⟨ev, hk, hev, hhk, -, hpts⟩ := update_core_ok_shape s c n m h
  rw [hke] at hev
  simp only [Option.getD_some, pyIterStrList] at hev
  refine ⟨by rw [update_with_chapter, h]; rfl,
    cdPoints c n ++ hk.map (mkHighPoint "hook" n), ?_, ?_, rfl, rfl, rfl, ?_, ?_⟩
  · rw [hpts, ← Except.ok.inj hev]
    by_cases ht : t = ""
    · simp [ht]
    · simp [ht, mkEventPoint]
  · intro p hp
    rcases List.mem_append.1 hp with hp1 | hp2
    · have hty : p.type = "character_development" := by
        unfold cdPoints at hp1
        cases hcd : c.character_development.getD (.str "") with
        | str d =>
            rw [hcd] at hp1
            dsimp only at hp1
            by_cases hd : d = ""
            · rw [if_neg (fun hne => hne hd)] at hp1
              cases hp1
            · rw [if_pos hd] at hp1
              simp only [List.mem_singleton] at hp1
              rw [hp1]
              rfl
        | lst l =>
            rw [hcd] at hp1
            dsimp only at hp1
            obtain ⟨x, -, hx⟩ := List.mem_map.1 hp1
            rw [← hx]
            rfl
        | pynone =>
            rw [hcd] at hp1
            dsimp only at hp1
            cases hp1
      rw [hty]
      decide
    · obtain ⟨x, -, hx⟩ := List.mem_map.1 hp2
      rw [← hx]
      simp [mkHighPoint]
  · unfold mkEventPoint eventImportance
    rcases hb : strIn "critical" (pyLower t) || strIn "important" (pyLower t) <;> simp [hb]
  · intro hb
    unfold mkEventPoint eventImportance
    rw [hb]
    rfl

/-- Witness for C5 at the spec's concrete example "Hero found the letter". -/
theorem string_key_event_normalization_witness :
    update_with_chapter (ContextManager.mk [] [])
        { key_events := some (PyVal.str "Hero found the letter") } 1 =
      Except.ok (prune_context (ContextManager.mk
        [ContextPoint.mk "Hero found the letter" 1 "medium" "event" 2]
        [(1, ChapterSummary.mk "Chapter 1" "No summary available."
          (PyVal.str "Hero found the letter"))])) ∧
    ∃ rest,
      (ContextManager.mk
        [ContextPoint.mk "Hero found the letter" 1 "medium" "event" 2]
        [(1, ChapterSummary.mk "Chapter 1" "No summary available."
          (PyVal.str "Hero found the letter"))]).context_points =
        (ContextManager.mk [] []).context_points ++
          (if "Hero found the letter" = "" then []
           else [mkEventPoint 1 "Hero found the letter"]) ++ rest ∧
      (∀ p ∈ rest, p.type ≠ "event") ∧
      (mkEventPoint 1 "Hero found the letter").content = "Hero found the letter" ∧
      (mkEventPoint 1 "Hero found the letter").type = "event" ∧
      (mkEventPoint 1 "Hero found the letter").chapter = 1 ∧
      ((mkEventPoint 1 "Hero found the letter").importance = "high" ↔
        (strIn "critical" (pyLower "Hero found the letter") ||
          strIn "important" (pyLower "Hero found the letter")) = true) ∧
      ((strIn "critical" (pyLower "Hero found the letter") ||
          strIn "important" (pyLower "Hero found the letter")) = false →
        (mkEventPoint 1 "Hero found the letter").importance = "medium") :=
  string_key_event_normalization (ContextManager.mk [] [])
    { key_events := some (PyVal.str "Hero found the letter") } 1
    "Hero found the letter"
    (ContextManager.mk
      [ContextPoint.mk "Hero found the letter" 1 "medium" "event" 2]
      [(1, ChapterSummary.mk "Chapter 1" "No summary available."
        (PyVal.str "Hero found the letter"))])
    rfl (by decide)

/-- Lookup after a dict upsert finds the new value. -/
theorem dictGet_dictSet {κ α : Type} [DecidableEq κ] (d : List (κ × α))
    (k : κ) (v : α) : dictGet? (dictSet d k v) k = some v := by
  induction d with
  | nil => simp [dictSet, dictGet?]
  | cons p t ih =>
      obtain ⟨k2, v2⟩ := p
      by_cases hk : k2 = k
      · simp [dictSet, hk, dictGet?]
      · simp [dictSet, hk, dictGet?, ih]

/-- Pruning never touches the chapter summaries. -/
theorem prune_context_summaries (s : ContextManager) :
    (prune_context s).chapter_summaries = s.chapter_summaries := by
  unfold prune_context
  split <;> rfl

/-- Every content string in a truncated, type-partitioned retrieval list
originates from a stored point of that type with chapter below `n`. -/
theorem mem_bundle_origin (pts : List ContextPoint) (n : Int) (ty x : String)
    (hx : x ∈ (((sortPoints (pts.filter (fun p => decide (p.chapter < n)))).filter
        (fun p => p.type == ty)).map (fun p => p.content)).take MAX_CONTEXT_ITEMS) :
    ∃ p, p ∈ pts ∧ p.type = ty ∧ p.chapter < n ∧ p.content = x := by
  have hx1 := List.take_subset _ _ hx
  obtain ⟨p, hp, hpc⟩ := List.mem_map.1 hx1
  have hp2 := List.mem_filter.1 hp
  have hmem : p ∈ pts.filter (fun p => decide (p.chapter < n)) := by
    have hs := hp2.1
    unfold sortPoints at hs
    exact (List.perm_insertionSort ptGe _).mem_iff.1 hs
  have hp3 := List.mem_filter.1 hmem
  refine ⟨p, hp3.1, ?_, ?_, hpc⟩
  · have := hp2.2
    simpa using this
  · have := hp3.2
    simpa using this

/-- C3 (amended): after a successful `update_with_chapter(c, i)` with
`i ≥ 1`, retrieval for chapter `i+1` contains c's summary in
`previous_chapters`; every string in the three point lists originates from
a stored point with `chapter < i+1` of the matching type (so no point from
chapter `≥ i+1` is ever included); every returned summary belongs to a
chapter number in `1..i` (so no summary for a chapter `≥ i+1` is ever
included); and every stored point with `chapter < i+1` — in particular
every freshly extracted point that survived pruning — enters the sorted
candidate list from which the returned lists take their first
`MAX_CONTEXT_ITEMS` entries. -/
theorem monotonic_visibility (s : ContextManager) (c : Chapter) (i : Int)
    (m : ContextManager) (hi : 1 ≤ i) (h : update_core s c i = Except.ok m) :
    update_with_chapter s c i = Except.ok (prune_context m) ∧
    summaryOf c i ∈
      (get_context_for_chapter (prune_context m) (i + 1)).1.previous_chapters ∧
    (∀ x ∈ (get_context_for_chapter (prune_context m) (i + 1)).1.key_events,
      ∃ p, p ∈ (prune_context m).context_points ∧ p.type = "event" ∧
        p.chapter < i + 1 ∧ p.content = x) ∧
    (∀ x ∈ (get_context_for_chapter (prune_context m) (i + 1)).1.character_developments,
      ∃ p, p ∈ (prune_context m).context_points ∧ p.type = "character_development" ∧
        p.chapter < i + 1 ∧ p.content = x) ∧
    (∀ x ∈ (get_context_for_chapter (prune_context m) (i + 1)).1.open_hooks,
      ∃ p, p ∈ (prune_context m).context_points ∧ p.type = "hook" ∧
        p.chapter < i + 1 ∧ p.content = x) ∧
    (∀ sm ∈ (get_context_for_chapter (prune_context m) (i + 1)).1.previous_chapters,
      ∃ k, k ∈ pyRange 1 (i + 1) ∧ 1 ≤ k ∧ k < i + 1 ∧
        dictGet? (prune_context m).chapter_summaries k = some sm) ∧
    (∀ p ∈ (prune_context m).context_points, p.chapter < i + 1 →
      p ∈ sortPoints ((prune_context m).context_points.filter
        (fun q => decide (q.chapter < i + 1)))) := by
  obtain ⟨ev, hk, -, -, hsum, -⟩ := update_core_ok_shape s c i m h
  have hne : ¬ (i + 1 = 1) := by omega
  have hb : (get_context_for_chapter (prune_context m) (i + 1)).1 =
      { previous_chapters := (pyRange 1 (i + 1)).filterMap
          (fun j => dictGet? (prune_context m).chapter_summaries j),
        key_events := (((sortPoints ((prune_context m).context_points.filter
            (fun p => decide (p.chapter < i + 1)))).filter
            (fun p => p.type == "event")).map (fun p => p.content)).take
          MAX_CONTEXT_ITEMS,
        character_developments := (((sortPoints ((prune_context m).context_points.filter
            (fun p => decide (p.chapter < i + 1)))).filter
            (fun p => p.type == "character_development")).map (fun p => p.content)).take
          MAX_CONTEXT_ITEMS,
        open_hooks := (((sortPoints ((prune_context m).context_points.filter
            (fun p => decide (p.chapter < i + 1)))).filter
            (fun p => p.type == "hook")).map (fun p => p.content)).take
          MAX_CONTEXT_ITEMS } := by
    unfold get_context_for_chapter
    rw [if_neg hne]
  have hget : dictGet? (prune_context m).chapter_summaries i =
      some (summaryOf c i) := by
    rw [prune_context_summaries, hsum]
    exact dictGet_dictSet _ _ _
  have hmemrange : i ∈ pyRange 1 (i + 1) := by
    unfold pyRange
    refine List.mem_map.2 ⟨(i - 1).toNat, List.mem_range.2 (by omega), ?_⟩
    simp only [Int.ofNat_eq_coe]
    omega
  refine ⟨by rw [update_with_chapter, h]; rfl, ?_, ?_, ?_, ?_, ?_, ?_⟩
  · rw [hb]
    exact List.mem_filterMap.2 ⟨i, hmemrange, by rw [hget]⟩
  · rw [hb]
    intro x hx
    exact mem_bundle_origin _ _ _ _ hx
  · rw [hb]
    intro x hx
    exact mem_bundle_origin _ _ _ _ hx
  · rw [hb]
    intro x hx
    exact mem_bundle_origin _ _ _ _ hx
  · rw [hb]
    intro sm hsm
    obtain ⟨k, hk1, hk2⟩ := List.mem_filterMap.1 hsm
    have hk3 := hk1
    unfold pyRange at hk3
    obtain ⟨a, ha1, ha2⟩ := List.mem_map.1 hk3
    have ha3 := List.mem_range.1 ha1
    simp only [Int.ofNat_eq_coe] at ha2
    exact ⟨k, hk1, by omega, by omega, hk2⟩
  · intro p hp hlt
    unfold sortPoints
    exact (List.perm_insertionSort ptGe _).mem_iff.2
      (List.mem_filter.2 ⟨hp, by simpa using hlt⟩)

/-- Witness for the amended C3 at a concrete store and chapter. -/
theorem monotonic_visibility_witness :
    update_with_chapter (ContextManager.mk [] [])
      { title := some "T", summary := some "S", key_events := some (PyVal.lst ["x"]) } 1 =
      Except.ok (prune_context (ContextManager.mk [ContextPoint.mk "x" 1 "medium" "event" 2] [(1, ChapterSummary.mk "T" "S" (PyVal.lst ["x"]))])) ∧
    summaryOf { title := some "T", summary := some "S", key_events := some (PyVal.lst ["x"]) } 1 ∈
      (get_context_for_chapter (prune_context (ContextManager.mk [ContextPoint.mk "x" 1 "medium" "event" 2] [(1, ChapterSummary.mk "T" "S" (PyVal.lst ["x"]))]))
        (1 + 1)).1.previous_chapters ∧
    (∀ x ∈ (get_context_for_chapter (prune_context (ContextManager.mk [ContextPoint.mk "x" 1 "medium" "event" 2] [(1, ChapterSummary.mk "T" "S" (PyVal.lst ["x"]))]))
        (1 + 1)).1.key_events,
      ∃ p, p ∈ (prune_context (ContextManager.mk [ContextPoint.mk "x" 1 "medium" "event" 2] [(1, ChapterSummary.mk "T" "S" (PyVal.lst ["x"]))])).context_points ∧
        p.type = "event" ∧ p.chapter < 1 + 1 ∧ p.content = x) ∧
    (∀ x ∈ (get_context_for_chapter (prune_context (ContextManager.mk [ContextPoint.mk "x" 1 "medium" "event" 2] [(1, ChapterSummary.mk "T" "S" (PyVal.lst ["x"]))]))
        (1 + 1)).1.character_developments,
      ∃ p, p ∈ (prune_context (ContextManager.mk [ContextPoint.mk "x" 1 "medium" "event" 2] [(1, ChapterSummary.mk "T" "S" (PyVal.lst ["x"]))])).context_points ∧
        p.type = "character_development" ∧ p.chapter < 1 + 1 ∧ p.content = x) ∧
    (∀ x ∈ (get_context_for_chapter (prune_context (ContextManager.mk [ContextPoint.mk "x" 1 "medium" "event" 2] [(1, ChapterSummary.mk "T" "S" (PyVal.lst ["x"]))]))
        (1 + 1)).1.open_hooks,
      ∃ p, p ∈ (prune_context (ContextManager.mk [ContextPoint.mk "x" 1 "medium" "event" 2] [(1, ChapterSummary.mk "T" "S" (PyVal.lst ["x"]))])).context_points ∧
        p.type = "hook" ∧ p.chapter < 1 + 1 ∧ p.content = x) ∧
    (∀ sm ∈ (get_context_for_chapter (prune_context (ContextManager.mk [ContextPoint.mk "x" 1 "medium" "event" 2] [(1, ChapterSummary.mk "T" "S" (PyVal.lst ["x"]))]))
        (1 + 1)).1.previous_chapters,
      ∃ k, k ∈ pyRange 1 (1 + 1) ∧ 1 ≤ k ∧ k < 1 + 1 ∧
        dictGet? (prune_context (ContextManager.mk [ContextPoint.mk "x" 1 "medium" "event" 2] [(1, ChapterSummary.mk "T" "S" (PyVal.lst ["x"]))])).chapter_summaries k = some sm) ∧
    (∀ p ∈ (prune_context (ContextManager.mk [ContextPoint.mk "x" 1 "medium" "event" 2] [(1, ChapterSummary.mk "T" "S" (PyVal.lst ["x"]))])).context_points, p.chapter < 1 + 1 →
      p ∈ sortPoints ((prune_context (ContextManager.mk [ContextPoint.mk "x" 1 "medium" "event" 2] [(1, ChapterSummary.mk "T" "S" (PyVal.lst ["x"]))])).context_points.filter
        (fun q => decide (q.chapter < 1 + 1)))) :=
  monotonic_visibility (ContextManager.mk [] [])
    { title := some "T", summary := some "S", key_events := some (PyVal.lst ["x"]) } 1
    (ContextManager.mk [ContextPoint.mk "x" 1 "medium" "event" 2] [(1, ChapterSummary.mk "T" "S" (PyVal.lst ["x"]))])
    (by decide) (by decide)

/-- Counterexample to C3 as stated: with fifteen stored weight-3 event
points, the point extracted from the new chapter's key event "x" is stored
(chapter 2 < 3) yet absent from the `key_events` list returned by
`get_context_for_chapter(3)`, because each list is truncated to the first
MAX_CONTEXT_ITEMS entries of the sorted candidates. -/
theorem monotonic_visibility_cex :
    update_with_chapter visState visChapter 2 = Except.ok visAfter ∧
    (∃ p, p ∈ visAfter.context_points ∧ p.type = "event" ∧ p.chapter < 3 ∧
      p.content = "x") ∧
    "x" ∉ (get_context_for_chapter visAfter 3).1.key_events := by
  refine ⟨by decide, ⟨ContextPoint.mk "x" 2 "medium" "event" 2,
    by decide, rfl, by decide, rfl⟩, by decide⟩

/-- C8: the chapter-outline stage always returns exactly the requested
number of stubs: fewer parsed chapters are padded with placeholder stubs,
more are truncated, and a parse failure yields all placeholders. -/
theorem outline_count_guarantee (num_chapters : Nat) (genres : List String)
    (narrative_pacing : String)
    (parsed : Except String (Option (List OutlineStub))) :
    (generate_chapter_outlines num_chapters genres narrative_pacing
      parsed).length = num_chapters := by
  unfold generate_chapter_outlines
  cases parsed with
  | error e => simp
  | ok result =>
      simp only [List.length_map]
      by_cases h1 : (result.getD []).length < num_chapters
      · rw [if_pos h1]
        simp only [List.length_append, List.length_map, List.length_drop,
          List.length_range]
        omega
      · rw [if_neg h1]
        by_cases h2 : (result.getD []).length > num_chapters
        · rw [if_pos h2]
          simp only [List.length_take]
          omega
        · rw [if_neg h2]
          omega

/-- Counterexample to C7 as stated: in the genres=["Mystery"],
totalChapters=4 scenario, the emphasis for chapter 3 (position 3/4) lands
in the inclusive `<= 0.75` middle bucket, so its phase is "complication"
(with focus "developing"), not "resolving". -/
theorem genre_phase_boundary_cex :
    (determine_genre_emphasis mysteryFour 3).map (fun gd => gd.narrative_phase) =
      Except.ok "complication" ∧
    (determine_genre_emphasis mysteryFour 3).map (fun gd => gd.narrative_phase) ≠
      Except.ok "resolving" := by
  exact ⟨rfl, by decide⟩

/-- C7 (amended): with genres=["Mystery"] and four chapters, the genre
emphasis for chapter 1 reports phase "introduction", and the emphasis for
chapter 3 (position 3/4, inside the inclusive `<= 0.75` boundary) reports
focus "developing" and phase "complication". -/
theorem genre_phase_boundary :
    (determine_genre_emphasis mysteryFour 1).map (fun gd => gd.narrative_phase) =
      Except.ok "introduction" ∧
    (determine_genre_emphasis mysteryFour 3).map
        (fun gd => (gd.focus, gd.narrative_phase)) =
      Except.ok ("developing", "complication") := by
  exact ⟨rfl, rfl⟩

/-- C6: whenever the pre-parse genre-emphasis step succeeds and parsing
the generation output fails (for any raw text and reason), generate_chapter
raises nothing and returns the fallback chapter record with every schema
field present and `key_events = []`. -/
theorem schema_fallback (g : GeneratorState) (chapter_num : Int) (err : String)
    (guid : GenreEmphasis)
    (h : determine_genre_emphasis g chapter_num = Except.ok guid) :
    ∃ ch, generate_chapter g chapter_num (Except.error err) =
        Except.ok (ch, g.genre_arcs) ∧
      ch.chapter_number = some chapter_num ∧
      ch.title.isSome ∧ ch.content.isSome ∧ ch.summary.isSome ∧
      ch.key_events = some (PyVal.lst []) ∧
      ch.character_development.isSome ∧
      ch.cultural_elements_used = some (PyVal.lst []) ∧
      ch.genre_elements_used.isSome ∧
      ch.next_chapter_hooks = some (PyVal.lst []) := by
  have htot : ¬ g.story_chapters.length = 0 := by
    intro h0
    unfold determine_genre_emphasis at h
    rw [if_pos h0] at h
    cases h
  obtain ⟨els, hels⟩ : ∃ els,
      get_default_genre_elements g chapter_num = Except.ok els := by
    unfold get_default_genre_elements
    rw [if_neg htot]
    exact ⟨_, rfl⟩
  refine ⟨{ chapter_number := some chapter_num,
            title := some ((get_chapter_outline g chapter_num).title.getD
              ("Chapter " ++ toString chapter_num)),
            content := some "Error generating chapter content.",
            summary := some ((get_chapter_outline g chapter_num).summary.getD
              "Summary not available."),
            key_events := some (.lst []),
            character_development := some (.str "No character development tracked."),
            cultural_elements_used := some (.lst []),
            genre_elements_used := some (.lst els),
            next_chapter_hooks := some (.lst []) },
    ?_, rfl, rfl, rfl, rfl, rfl, rfl, rfl, rfl, rfl⟩
  unfold generate_chapter
  rw [h]
  dsimp only
  unfold fallback_chapter
  rw [hels]

/-- Witness for C6: chapter 2 of the Mystery/4-chapter configuration with
raw output "not json". -/
theorem schema_fallback_witness :
    ∃ ch, generate_chapter mysteryFour 2 (Except.error "not json") =
        Except.ok (ch, mysteryFour.genre_arcs) ∧
      ch.chapter_number = some 2 ∧
      ch.title.isSome ∧ ch.content.isSome ∧ ch.summary.isSome ∧
      ch.key_events = some (PyVal.lst []) ∧
      ch.character_development.isSome ∧
      ch.cultural_elements_used = some (PyVal.lst []) ∧
      ch.genre_elements_used.isSome ∧
      ch.next_chapter_hooks = some (PyVal.lst []) :=
  schema_fallback mysteryFour 2 "not json"
    (GenreEmphasis.mk "2/4" "complication" "developing" "Mystery" "Mystery"
      [("Mystery", StageInfo.mk "Red herrings" "primary")]
      "This chapter should primarily emphasize Mystery elements while incorporating supporting elements from Mystery.")
    (by decide)
